import Mathlib

/-!
Verification development for the expLORA Gateway Lite packet pipeline.

The definitions below are shallow embeddings of the C++ sources:
machine bytes become Nat values kept below 256, 16-bit and 32-bit words
become Nat (or Int where the source reads a signed 16-bit quantity),
float arithmetic is modelled over the rationals, and buffers become
lists of Nat.  Each definition carries a pointer to the source function
it embeds.
-/

namespace ExpLora

/-! ### The streaming XOR cipher (src/Protocol/LoRaProtocol.cpp, decryptData) -/

/-- Byte i of the 32-bit key in little-endian order, as read by
decryptData through the byte pointer cast: key_bytes[i and 0x03]. -/
def keyByte (key i : Nat) : Nat :=
  (key >>> (8 * (i % 4))) % 256

/-- Loop body of LoRaProtocol::decryptData.  The index i selects the key
byte, prev carries the previous ciphertext byte, and each output byte is
cipher XOR key-byte XOR (prev shifted right by one). -/
def decryptGo (key : Nat) : List Nat → Nat → Nat → List Nat
  | [], _, _ => []
  | c :: rest, i, prev => (c ^^^ keyByte key i ^^^ (prev >>> 1)) :: decryptGo key rest (i + 1) c

/-- LoRaProtocol::decryptData: decrypt a whole buffer in place, starting
with index 0 and previous byte 0. -/
def decryptData (data : List Nat) (key : Nat) : List Nat :=
  decryptGo key data 0 0

/-- Modelled from the spec: the sensor-side encryption direction, which is
not part of this repository.  Each output byte is the input byte XORed
with the key byte at index i mod 4 (little-endian) and with the previous
ciphertext byte shifted right by one. -/
def encryptGo (key : Nat) : List Nat → Nat → Nat → List Nat
  | [], _, _ => []
  | p :: rest, i, prev =>
      let c := p ^^^ keyByte key i ^^^ (prev >>> 1)
      c :: encryptGo key rest (i + 1) c

/-- Modelled from the spec: whole-buffer encryption, index 0, previous
ciphertext byte 0. -/
def encryptData (data : List Nat) (key : Nat) : List Nat :=
  encryptGo key data 0 0

/-! ### Checksum (src/Protocol/LoRaProtocol.cpp, calculateChecksum / validateChecksum) -/

/-- LoRaProtocol::calculateChecksum: XOR of all bytes. -/
def calculateChecksum (data : List Nat) : Nat :=
  data.foldl (· ^^^ ·) 0

/-- LoRaProtocol::validateChecksum: buffers shorter than 2 fail; otherwise
the last byte must equal the XOR of all preceding bytes. -/
def validateChecksum (buf : List Nat) : Bool :=
  if buf.length < 2 then false
  else buf.getLastD 0 == calculateChecksum buf.dropLast

/-- The 24-bit serial number read from plaintext offsets 2..4, big-endian
(tryDecryptWithAllKeys and the per-kind packet processors). -/
def packetSN (buf : List Nat) : Nat :=
  (buf.getD 2 0) * 65536 + (buf.getD 3 0) * 256 + buf.getD 4 0

/-! ### Round-trip of the cipher -/

theorem xor_mask_cancel (a b c : Nat) : a ^^^ b ^^^ c ^^^ b ^^^ c = a := by
  rw [Nat.xor_assoc a b c, Nat.xor_assoc a (b ^^^ c) b, Nat.xor_comm (b ^^^ c) b,
    ← Nat.xor_assoc b b c, Nat.xor_self, Nat.zero_xor, Nat.xor_assoc a c c,
    Nat.xor_self, Nat.xor_zero]

theorem decryptGo_encryptGo (key : Nat) (l : List Nat) :
    ∀ i prev, decryptGo key (encryptGo key l i prev) i prev = l := by
  induction l with
  | nil => intro i prev; rfl
  | cons x rest ih =>
      intro i prev
      simp only [encryptGo, decryptGo, xor_mask_cancel, ih]

/-- C2: decrypting an encrypted byte sequence with the same 32-bit key
returns the original sequence, for sequences of length at most 255. -/
theorem decrypt_encrypt_roundtrip (key : Nat) (p : List Nat)
    (_hkey : key < 2 ^ 32) (_hlen : p.length ≤ 255) (_hbytes : ∀ b ∈ p, b < 256) :
    decryptData (encryptData p key) key = p :=
  decryptGo_encryptGo key p 0 0

/-- C2 witness: the round-trip at a concrete key and byte sequence. -/
theorem decrypt_encrypt_roundtrip_witness :
    decryptData (encryptData [0x42, 0x01, 0xAB, 0xCD, 0xEF] 0xDEADBEEF) 0xDEADBEEF
      = [0x42, 0x01, 0xAB, 0xCD, 0xEF] :=
  decrypt_encrypt_roundtrip 0xDEADBEEF [0x42, 0x01, 0xAB, 0xCD, 0xEF]
    (by decide) (by decide) (by decide)

/-! ### Sensor capability table (src/Data/SensorTypes.h) -/

/-- One row of SENSOR_TYPE_DEFINITIONS: the numeric device kind, the
expected payload length, the payload offset, and the capability flags. -/
structure SensorTypeInfo where
  typeVal : Nat
  expectedDataLength : Nat
  packetDataOffset : Nat
  hasTemperature : Bool
  hasHumidity : Bool
  hasPressure : Bool
  hasPPM : Bool
  hasLux : Bool
  hasWindSpeed : Bool
  hasWindDirection : Bool
  hasRainAmount : Bool
  hasRainRate : Bool

/-- The UNKNOWN row of the table (kind 0). -/
def unknownTypeInfo : SensorTypeInfo :=
  ⟨0, 0, 7, false, false, false, false, false, false, false, false, false⟩

/-- SENSOR_TYPE_DEFINITIONS from src/Data/SensorTypes.h: rows for
UNKNOWN (0), BME280 (1), SCD40 (2) and METEO (3).  The VEML7700 row is
commented out in the source, and DIY_TEMP (0x51) has no row at all. -/
def SENSOR_TYPE_DEFINITIONS : List SensorTypeInfo :=
  [unknownTypeInfo,
   ⟨1, 6, 7, true, true, true, false, false, false, false, false, false⟩,
   ⟨2, 6, 7, true, true, false, true, false, false, false, false, false⟩,
   ⟨3, 14, 7, true, true, true, false, false, true, true, true, true⟩]

/-- getSensorTypeInfo: linear scan of the table, falling back to the
UNKNOWN row (the first table entry) when the kind is absent. -/
def getSensorTypeInfo (t : Nat) : SensorTypeInfo :=
  match SENSOR_TYPE_DEFINITIONS.find? (fun info => info.typeVal == t) with
  | some info => info
  | none => unknownTypeInfo

/-! ### Sensor records (src/Data/SensorData.h) -/

/-- The per-device record.  Floats of the source are modelled as
rationals; the uint16 wind direction and the timestamps are Nat; the
int-typed windDirectionCorrection, altitude and rssi are Int.  The
logging-only name field is omitted. -/
structure SensorData where
  deviceType : Nat
  serialNumber : Nat
  deviceKey : Nat
  customUrl : String
  altitude : Int
  lastSeen : Nat
  configured : Bool
  temperature : ℚ
  humidity : ℚ
  pressure : ℚ
  ppm : ℚ
  lux : ℚ
  windSpeed : ℚ
  windDirection : Nat
  rainAmount : ℚ
  rainRate : ℚ
  dailyRainTotal : ℚ
  lastRainReset : Nat
  temperatureCorrection : ℚ
  humidityCorrection : ℚ
  pressureCorrection : ℚ
  ppmCorrection : ℚ
  luxCorrection : ℚ
  windSpeedCorrection : ℚ
  windDirectionCorrection : Int
  rainAmountCorrection : ℚ
  rainRateCorrection : ℚ
  batteryVoltage : ℚ
  rssi : Int
deriving DecidableEq

/-- The SensorData constructor defaults from src/Data/SensorData.h. -/
def defaultSensor : SensorData :=
  { deviceType := 0, serialNumber := 0, deviceKey := 0, customUrl := ""
    altitude := 0, lastSeen := 0, configured := false
    temperature := 0, humidity := 0, pressure := 0, ppm := 0, lux := 0
    windSpeed := 0, windDirection := 0, rainAmount := 0, rainRate := 0
    dailyRainTotal := 0, lastRainReset := 0
    temperatureCorrection := 0, humidityCorrection := 0, pressureCorrection := 0
    ppmCorrection := 0, luxCorrection := 0
    windSpeedCorrection := 1, windDirectionCorrection := 0
    rainAmountCorrection := 1, rainRateCorrection := 1
    batteryVoltage := 0, rssi := 0 }

/-- Capability helper of SensorData, delegating to the type table. -/
def SensorData.hasTemperature (s : SensorData) : Bool :=
  (getSensorTypeInfo s.deviceType).hasTemperature

/-- Capability helper of SensorData, delegating to the type table. -/
def SensorData.hasHumidity (s : SensorData) : Bool :=
  (getSensorTypeInfo s.deviceType).hasHumidity

/-- Capability helper of SensorData, delegating to the type table. -/
def SensorData.hasPressure (s : SensorData) : Bool :=
  (getSensorTypeInfo s.deviceType).hasPressure

/-- Capability helper of SensorData, delegating to the type table. -/
def SensorData.hasPPM (s : SensorData) : Bool :=
  (getSensorTypeInfo s.deviceType).hasPPM

/-- Capability helper of SensorData, delegating to the type table. -/
def SensorData.hasLux (s : SensorData) : Bool :=
  (getSensorTypeInfo s.deviceType).hasLux

/-- Capability helper of SensorData, delegating to the type table. -/
def SensorData.hasWindSpeed (s : SensorData) : Bool :=
  (getSensorTypeInfo s.deviceType).hasWindSpeed

/-- Capability helper of SensorData, delegating to the type table. -/
def SensorData.hasWindDirection (s : SensorData) : Bool :=
  (getSensorTypeInfo s.deviceType).hasWindDirection

/-- Capability helper of SensorData, delegating to the type table. -/
def SensorData.hasRainAmount (s : SensorData) : Bool :=
  (getSensorTypeInfo s.deviceType).hasRainAmount

/-- Capability helper of SensorData, delegating to the type table. -/
def SensorData.hasRainRate (s : SensorData) : Bool :=
  (getSensorTypeInfo s.deviceType).hasRainRate

/-! ### Registry lookup (src/Data/SensorManager.cpp, findSensorBySN) -/

/-- Loop body of SensorManager::findSensorBySN with running index. -/
def findSensorAux (sn : Nat) : List SensorData → Nat → Int
  | [], _ => -1
  | s :: rest, i =>
      if s.configured && s.serialNumber == sn then Int.ofNat i
      else findSensorAux sn rest (i + 1)

/-- SensorManager::findSensorBySN: index of the first configured sensor
with the given serial, or -1. -/
def findSensorBySN (sensors : List SensorData) (sn : Nat) : Int :=
  findSensorAux sn sensors 0

/-! ### Trial decryption (src/Protocol/LoRaProtocol.cpp, tryDecryptWithAllKeys) -/

/-- The loop of LoRaProtocol::tryDecryptWithAllKeys over the active
sensors: decrypt with each key, and on a checksum-valid plaintext whose
serial matches the key owner, return the registry index of that serial
together with the decrypted buffer. -/
def tryDecryptLoop (sensors : List SensorData) (frame : List Nat) :
    List SensorData → Option (Int × List Nat)
  | [] => none
  | s :: rest =>
      let dec := decryptData frame s.deviceKey
      if validateChecksum dec && packetSN dec == s.serialNumber then
        some (findSensorBySN sensors s.serialNumber, dec)
      else tryDecryptLoop sensors frame rest

/-- LoRaProtocol::tryDecryptWithAllKeys: run the trial loop over the
configured sensors; on failure return -1 with the buffer decrypted by
the first active key (or copied verbatim when there is none). -/
def tryDecryptWithAllKeys (sensors : List SensorData) (frame : List Nat) :
    Int × List Nat :=
  match tryDecryptLoop sensors frame (sensors.filter (fun s => s.configured)) with
  | some r => r
  | none =>
      match sensors.filter (fun s => s.configured) with
      | [] => (-1, frame)
      | s :: _ => (-1, decryptData frame s.deviceKey)

theorem findSensorAux_sound (sn : Nat) (l : List SensorData) :
    ∀ k i : Nat, findSensorAux sn l k = Int.ofNat i →
      k ≤ i ∧ ∃ s, l.get? (i - k) = some s ∧ s.configured = true ∧ s.serialNumber = sn := by
  induction l with
  | nil => intro k i h; simp [findSensorAux] at h
  | cons a rest ih =>
      intro k i h
      rw [findSensorAux] at h
      by_cases hc : a.configured && a.serialNumber == sn
      · rw [if_pos hc] at h
        simp only [Bool.and_eq_true, beq_iff_eq] at hc
        have hk : k = i := Int.ofNat.inj h
        subst hk
        refine ⟨le_refl k, a, ?_, hc.1, hc.2⟩
        simp
      · rw [if_neg hc] at h
        obtain ⟨hki, s, hs, hcfg, hsn⟩ := ih (k + 1) i h
        refine ⟨by omega, s, ?_, hcfg, hsn⟩
        have : i - k = (i - (k + 1)) + 1 := by omega
        rw [this]
        simpa using hs

theorem tryDecryptLoop_sound (sensors : List SensorData) (frame : List Nat) :
    ∀ l j dec, tryDecryptLoop sensors frame l = some (j, dec) →
      ∃ s ∈ l, dec = decryptData frame s.deviceKey ∧
        validateChecksum dec = true ∧ packetSN dec = s.serialNumber ∧
        j = findSensorBySN sensors s.serialNumber := by
  intro l
  induction l with
  | nil => intro j dec h; simp [tryDecryptLoop] at h
  | cons a rest ih =>
      intro j dec h
      rw [tryDecryptLoop] at h
      by_cases hc : validateChecksum (decryptData frame a.deviceKey) &&
          packetSN (decryptData frame a.deviceKey) == a.serialNumber
      · rw [if_pos hc] at h
        simp only [Bool.and_eq_true, beq_iff_eq] at hc
        obtain ⟨hj, hdec⟩ := Prod.mk.inj (Option.some.inj h)
        subst hdec
        exact ⟨a, List.mem_cons_self a rest, rfl, hc.1, hc.2, hj.symm⟩
      · rw [if_neg hc] at h
        obtain ⟨s, hmem, rest'⟩ := ih j dec h
        exact ⟨s, List.mem_cons_of_mem a hmem, rest'⟩

/-- C1: whenever trial decryption returns a non-negative sensor index,
the plaintext produced by decrypting the frame with the key of the
device at that index has a valid XOR checksum and carries the registered
24-bit serial of that device at offsets 2..4.  The hypothesis is the
registry invariant that configured serial numbers are pairwise
distinct. -/
theorem tryDecrypt_match_sound (sensors : List SensorData) (frame : List Nat) (i : Nat)
    (hser : ((sensors.filter (fun s => s.configured)).map (fun s => s.serialNumber)).Nodup)
    (hres : (tryDecryptWithAllKeys sensors frame).1 = Int.ofNat i) :
    ∃ s, sensors.get? i = some s ∧ s.configured = true ∧
      (tryDecryptWithAllKeys sensors frame).2 = decryptData frame s.deviceKey ∧
      validateChecksum (decryptData frame s.deviceKey) = true ∧
      packetSN (decryptData frame s.deviceKey) = s.serialNumber := by
  rw [tryDecryptWithAllKeys] at hres ⊢
  cases hloop : tryDecryptLoop sensors frame (sensors.filter (fun s => s.configured)) with
  | none =>
      exfalso
      rw [hloop] at hres
      cases hfil : sensors.filter (fun s => s.configured) with
      | nil => rw [hfil] at hres; simp at hres
      | cons a rest => rw [hfil] at hres; simp at hres
  | some r =>
      obtain ⟨j, dec⟩ := r
      rw [hloop] at hres
      dsimp only at hres ⊢
      obtain ⟨s0, hmem, hdec, hchk, hsn, hj⟩ :=
        tryDecryptLoop_sound sensors frame _ j dec hloop
      rw [hj, findSensorBySN] at hres
      obtain ⟨-, t, hget, htcfg, htsn⟩ :=
        findSensorAux_sound s0.serialNumber sensors 0 i hres
      rw [Nat.sub_zero] at hget
      have hts : t = s0 := by
        have hmem' : t ∈ sensors.filter (fun s => s.configured) := by
          rw [List.mem_filter]
          exact ⟨List.get?_mem hget, htcfg⟩
        exact List.inj_on_of_nodup_map hser hmem' hmem htsn
      refine ⟨t, hget, htcfg, ?_, ?_, ?_⟩
      · rw [hts, ← hdec]
      · rw [hts, ← hdec]; exact hchk
      · rw [hts, ← hdec, hsn]

/-- A one-device registry used to exercise the trial-decryption theorem:
serial 0xABCDEF, key 0xDEADBEEF, kind BME280. -/
def demoSensor : SensorData :=
  { defaultSensor with
    configured := true, deviceType := 1, serialNumber := 0xABCDEF,
    deviceKey := 0xDEADBEEF }

/-- A checksum-valid BME280 plaintext carrying serial 0xABCDEF (the
scenario frame of the spec, final byte the XOR of the others). -/
def demoPlain : List Nat :=
  [0x42, 0x01, 0xAB, 0xCD, 0xEF, 0x0B, 0xB8, 0x03,
   0x08, 0x34, 0x27, 0x18, 0x10, 0xE8, 0x81]

/-- The corresponding wire frame, encrypted with the demo key. -/
def demoFrame : List Nat :=
  encryptData demoPlain 0xDEADBEEF

/-- C1 witness: on the one-device registry the trial decryption of the
demo frame matches index 0 with a checksum-valid, serial-matching
plaintext. -/
theorem tryDecrypt_match_sound_witness :
    ∃ s, [demoSensor].get? 0 = some s ∧ s.configured = true ∧
      (tryDecryptWithAllKeys [demoSensor] demoFrame).2
        = decryptData demoFrame s.deviceKey ∧
      validateChecksum (decryptData demoFrame s.deviceKey) = true ∧
      packetSN (decryptData demoFrame s.deviceKey) = s.serialNumber :=
  tryDecrypt_match_sound [demoSensor] demoFrame 0 (by decide) (by decide)

/-! ### Packet validation (src/Protocol/LoRaProtocol.cpp, isValidPacket)

Buffers are byte lists: every element is understood to be below 256,
as produced by the uint8 buffers of the source. -/

/-- A big-endian 16-bit word at offsets i, i+1. -/
def readU16 (buf : List Nat) (i : Nat) : Nat :=
  buf.getD i 0 * 256 + buf.getD (i + 1) 0

/-- The same word reinterpreted as a signed 16-bit value, as done by the
int16_t cast of the source. -/
def readS16 (buf : List Nat) (i : Nat) : Int :=
  if readU16 buf i < 32768 then (readU16 buf i : Int)
  else (readU16 buf i : Int) - 65536

/-- The METEO range checks of isValidPacket: temperature, pressure,
humidity, wind speed against the raw threshold 6000, wind direction. -/
def meteoRangeOk (buf : List Nat) : Bool :=
  decide (-5000 ≤ readS16 buf 8 ∧ readS16 buf 8 ≤ 6000) &&
  decide (8500 ≤ readU16 buf 10 ∧ readU16 buf 10 ≤ 11000) &&
  decide (readU16 buf 12 ≤ 10000) &&
  decide (readU16 buf 14 ≤ 6000) &&
  decide (readU16 buf 16 ≤ 359)

/-- The range checks of isValidPacket for non-METEO packets declaring at
least three values: temperature, a per-kind pressure or CO2 check, and
humidity. -/
def stdRangeOk (buf : List Nat) : Bool :=
  decide (-5000 ≤ readS16 buf 8 ∧ readS16 buf 8 ≤ 6000) &&
  (if buf.getD 1 0 = 1 then decide (8500 ≤ readU16 buf 10 ∧ readU16 buf 10 ≤ 11000)
   else if buf.getD 1 0 = 2 then decide (readU16 buf 10 ≤ 10000)
   else true) &&
  decide (readU16 buf 12 ≤ 10000)

/-- LoRaProtocol::isValidPacket, with the guard cascade flattened:
minimum length, the per-kind length contract (METEO accepts 21 or 23
bytes regardless of the declared value count; every other kind requires
8 + 2 num_values + 1), the value-count cap, the device-kind sanity
check, and finally the range checks, which run only for METEO packets
declaring at least 6 values or other packets declaring at least 3. -/
def isValidPacket (buf : List Nat) : Bool :=
  if buf.length < 9 then false
  else if buf.getD 1 0 = 3 ∧ buf.length ≠ 23 ∧ buf.length ≠ 21 then false
  else if buf.getD 1 0 ≠ 3 ∧ buf.length ≠ 8 + buf.getD 7 0 * 2 + 1 then false
  else if 10 < buf.getD 7 0 then false
  else if buf.getD 1 0 = 0 ∨ 256 < buf.getD 1 0 then false
  else if buf.getD 1 0 = 3 ∧ 6 ≤ buf.getD 7 0 then meteoRangeOk buf
  else if 3 ≤ buf.getD 7 0 then stdRangeOk buf
  else true

/-! ### METEO and DIY_TEMP decoding (src/Protocol/LoRaProtocol.cpp) -/

/-- The values extracted by processMeteoPacket. -/
structure MeteoValues where
  serialNumber : Nat
  voltage : ℚ
  temp : ℚ
  press : ℚ
  hum : ℚ
  windSpeed : ℚ
  windDirection : Nat
  rainAmount : ℚ
  rainRate : ℚ
deriving DecidableEq

/-- LoRaProtocol::processMeteoPacket, decoding part: packets shorter
than 21 bytes are refused; the rain rate is read from bytes 20..21 and
divided by 100 only when the frame has at least 23 bytes, and is 0
otherwise. -/
def processMeteoDecode (buf : List Nat) : Option MeteoValues :=
  if buf.length < 21 then none
  else some
    { serialNumber := packetSN buf
      voltage := (readU16 buf 5 : ℚ) / 1000
      temp := (readS16 buf 8 : ℚ) / 100
      press := (readU16 buf 10 : ℚ) / 10
      hum := (readU16 buf 12 : ℚ) / 100
      windSpeed := (readU16 buf 14 : ℚ) / 10
      windDirection := readU16 buf 16
      rainAmount := (readU16 buf 18 : ℚ) / 1000
      rainRate := if 23 ≤ buf.length then (readU16 buf 20 : ℚ) / 100 else 0 }

/-- LoRaProtocol::processDIYTempPacket, decoding part: the minimum
length comes from the type table, which has no DIY_TEMP row and hence
answers with the UNKNOWN row; the result is the temperature in degrees
and the battery voltage. -/
def processDIYTempDecode (buf : List Nat) : Option (ℚ × ℚ) :=
  if buf.length < (getSensorTypeInfo 0x51).packetDataOffset
      + (getSensorTypeInfo 0x51).expectedDataLength + 1 then none
  else some ((readS16 buf 8 : ℚ) / 100, (readU16 buf 5 : ℚ) / 1000)

/-- C3: a 23-byte METEO frame declaring 6 values is not rejected for the
length discrepancy - its validity reduces to the range checks alone -
and its rain rate is decoded from bytes 20..21 divided by 100; a
21-byte METEO frame decodes rain rate 0; every non-METEO frame is
accepted only if its length is 8 + 2 num_values + 1. -/
theorem meteo_length_quirk :
    (∀ buf : List Nat, buf.length = 23 → buf.getD 1 0 = 3 → buf.getD 7 0 = 6 →
      isValidPacket buf = meteoRangeOk buf) ∧
    (∀ buf : List Nat, buf.length = 23 →
      (processMeteoDecode buf).map (fun v => v.rainRate)
        = some ((readU16 buf 20 : ℚ) / 100)) ∧
    (∀ buf : List Nat, buf.length = 21 →
      (processMeteoDecode buf).map (fun v => v.rainRate) = some 0) ∧
    (∀ buf : List Nat, buf.getD 1 0 ≠ 3 → isValidPacket buf = true →
      buf.length = 8 + buf.getD 7 0 * 2 + 1) := by
  refine ⟨?_, ?_, ?_, ?_⟩
  · intro buf hlen ht hn
    rw [isValidPacket]
    rw [if_neg (by omega), if_neg (by omega), if_neg (by omega),
      if_neg (by omega), if_neg (by omega), if_pos (by omega)]
  · intro buf hlen
    rw [processMeteoDecode, if_neg (by omega)]
    simp [hlen]
  · intro buf hlen
    rw [processMeteoDecode, if_neg (by omega)]
    simp [hlen]
  · intro buf ht hv
    rw [isValidPacket] at hv
    by_cases h1 : buf.length < 9
    · rw [if_pos h1] at hv; exact absurd hv (by simp)
    · rw [if_neg h1, if_neg (by omega)] at hv
      by_cases h2 : buf.getD 1 0 ≠ 3 ∧ buf.length ≠ 8 + buf.getD 7 0 * 2 + 1
      · rw [if_pos h2] at hv; exact absurd hv (by simp)
      · omega

/-- A well-formed 23-byte METEO frame (all ranges in bounds). -/
def meteo23 : List Nat :=
  [0x42, 0x03, 0xAB, 0xCD, 0xEF, 0x0B, 0xB8, 6,
   0x08, 0x34, 0x27, 0x18, 0x10, 0xE8, 0x00, 0x64,
   0x00, 0x5A, 0x00, 0x14, 0x00, 0xC8, 0x00]

/-- The 21-byte form of the same METEO frame (no rain-rate word). -/
def meteo21 : List Nat :=
  [0x42, 0x03, 0xAB, 0xCD, 0xEF, 0x0B, 0xB8, 6,
   0x08, 0x34, 0x27, 0x18, 0x10, 0xE8, 0x00, 0x64,
   0x00, 0x5A, 0x00, 0x14, 0x00]

/-- C3 witness: the quirk theorem evaluated on concrete 23-byte,
21-byte and BME280 frames. -/
theorem meteo_length_quirk_witness :
    isValidPacket meteo23 = meteoRangeOk meteo23 ∧
    (processMeteoDecode meteo23).map (fun v => v.rainRate) = some ((readU16 meteo23 20 : ℚ) / 100) ∧
    (processMeteoDecode meteo21).map (fun v => v.rainRate) = some 0 ∧
    demoPlain.length = 8 + demoPlain.getD 7 0 * 2 + 1 :=
  ⟨meteo_length_quirk.1 meteo23 (by decide) (by decide) (by decide),
   meteo_length_quirk.2.1 meteo23 (by decide),
   meteo_length_quirk.2.2.1 meteo21 (by decide),
   meteo_length_quirk.2.2.2 demoPlain (by decide) (by decide)⟩

/-- A 21-byte METEO frame whose wind-speed word is 601, which the
decoder reads as 60.1 m/s; all other fields are in range. -/
def meteoWind601 : List Nat :=
  [0x42, 0x03, 0xAB, 0xCD, 0xEF, 0x0B, 0xB8, 6,
   0x08, 0x34, 0x27, 0x18, 0x10, 0xE8, 0x02, 0x59,
   0x00, 0x5A, 0x00, 0x14, 0x00]

/-- C4: the validator accepts a METEO frame whose decoded wind speed is
60.1 m/s, exceeding the 60.0 m/s limit that both the spec and the
validator comment state: the check compares the raw word against 6000
although the decoder divides the raw word by 10. -/
theorem wind_speed_limit_not_enforced :
    isValidPacket meteoWind601 = true ∧
    (processMeteoDecode meteoWind601).map (fun v => v.windSpeed)
      = some ((601 : ℚ) / 10) ∧
    (60 : ℚ) < (601 : ℚ) / 10 := by
  refine ⟨by decide, ?_, by norm_num⟩
  rw [processMeteoDecode, if_neg (by decide)]
  simp only [Option.map_some']
  norm_num [readU16, meteoWind601]

/-- A DIY_TEMP frame (kind 0x51, one declared value) with the
temperature word given by the two bytes t1, t2; serial 0xABCDEF,
battery 3000 mV, trailing checksum byte not inspected by the
validator. -/
def diyFrame (t1 t2 : Nat) : List Nat :=
  [0x42, 0x51, 0xAB, 0xCD, 0xEF, 0x0B, 0xB8, 0x01, t1, t2, 0x00]

/-- A DIY_TEMP frame whose decoded temperature is 70.00 degrees, beyond
the documented 60.00 degree limit. -/
def diyHot : List Nat := diyFrame 0x1B 0x58

/-- C5 counterexample: the validator accepts a DIY_TEMP frame whose raw
temperature word is 7000 (70.00 degrees, above the 6000 limit), and the
DIY_TEMP processor decodes it, because the temperature range check only
runs for frames declaring at least 3 values and DIY_TEMP declares 1. -/
theorem diy_hot_temp_accepted :
    isValidPacket diyHot = true ∧
    readS16 diyHot 8 = 7000 ∧ (6000 : Int) < 7000 ∧
    (processDIYTempDecode diyHot).isSome = true := by
  refine ⟨by decide, by decide, by decide, by decide⟩

/-- C5 as amended: for non-METEO frames the temperature range check is
applied exactly when the declared value count is at least 3; a valid
such frame always carries a raw temperature in -5000..6000.  DIY_TEMP
frames declare a single value, so they are accepted and decoded
whatever their temperature bytes hold. -/
theorem temp_range_check_gated :
    (∀ buf : List Nat, buf.getD 1 0 ≠ 3 → 3 ≤ buf.getD 7 0 →
      isValidPacket buf = true →
      -5000 ≤ readS16 buf 8 ∧ readS16 buf 8 ≤ 6000) ∧
    (∀ t1 t2 : Nat,
      isValidPacket (diyFrame t1 t2) = true ∧
      (processDIYTempDecode (diyFrame t1 t2)).isSome = true) := by
  constructor
  · intro buf hk hn hv
    rw [isValidPacket] at hv
    split_ifs at hv with h1 h2 h3 h4 h5 h6
    · exact absurd h6.1 hk
    · rw [stdRangeOk, Bool.and_eq_true, Bool.and_eq_true] at hv
      exact of_decide_eq_true hv.1.1
  · intro t1 t2
    constructor
    · rw [isValidPacket]
      rw [if_neg (by simp [diyFrame]), if_neg (by simp [diyFrame]),
        if_neg (by simp [diyFrame]), if_neg (by simp [diyFrame]),
        if_neg (by simp [diyFrame]), if_neg (by simp [diyFrame]),
        if_neg (by simp [diyFrame])]
    · rw [processDIYTempDecode]
      have h51 : getSensorTypeInfo 0x51 = unknownTypeInfo := rfl
      rw [h51, if_neg (by simp [diyFrame, unknownTypeInfo])]
      rfl

/-- C5 witness: the gated check evaluated on the valid BME280 plaintext
and the bypass evaluated on the hot DIY_TEMP frame. -/
theorem temp_range_check_gated_witness :
    (-5000 ≤ readS16 demoPlain 8 ∧ readS16 demoPlain 8 ≤ 6000) ∧
    (isValidPacket (diyFrame 0x1B 0x58) = true ∧
      (processDIYTempDecode (diyFrame 0x1B 0x58)).isSome = true) :=
  ⟨temp_range_check_gated.1 demoPlain (by decide) (by decide) (by decide),
   temp_range_check_gated.2 0x1B 0x58⟩

/-! ### Applying a reading (src/Data/SensorManager.cpp, updateSensorData) -/

/-- The time facilities used by the rain-day rollover.  timeOk models
Logger::isTimeInitialized together with a successful getLocalTime call
(on the target both answer the question whether the wall clock has been
synchronised), now is the wall-clock time, localDate maps a wall-clock
time to its local (day, month, year) triple as the C localtime does,
and nowMillis is the monotonic millis() counter. -/
structure TimeEnv where
  timeOk : Bool
  now : Nat
  localDate : Nat → Nat × Nat × Nat
  nowMillis : Nat

/-- The raw measurement arguments of SensorManager::updateSensorData. -/
structure MeasIn where
  temperature : ℚ
  humidity : ℚ
  pressure : ℚ
  ppm : ℚ
  lux : ℚ
  batteryVoltage : ℚ
  rssi : Int
  windSpeed : ℚ
  windDirection : Nat
  rainAmount : ℚ
  rainRate : ℚ
deriving DecidableEq

/-- The wind-direction calibration line of the source with C++ integer
semantics: the uint16 raw value and the int offset are added as int,
reduced with the truncating C++ remainder (Int.tmod), and the result is
converted back to uint16, wrapping modulo 65536. -/
def cppWindDirCalib (raw : Nat) (corr : Int) : Nat :=
  ((((raw : Int) + corr).tmod 360).emod 65536).toNat

/-- The rollover condition of the rain block: the stored reset time is 0
or its local date differs from the local date of the current packet. -/
def rainResetNeeded (env : TimeEnv) (s : SensorData) : Bool :=
  decide (s.lastRainReset = 0 ∨ env.localDate env.now ≠ env.localDate s.lastRainReset)

/-- The body of SensorManager::updateSensorData for the selected sensor,
with the chain of in-place mutations gathered into one record: apply
the per-field corrections, calibrate the wind direction with C++
semantics, adjust pressure for altitude through padj (a parameter
abstracting relativeToAbsolutePressure, whose real-exponent power is
not rational), store each value only when the capability table grants
the field, run the rain-day rollover, accumulate the daily rain total,
and always update battery, rssi and lastSeen.  Logging, persistence and
the HTTP forward are outside this state transition. -/
def applySensorUpdate (padj : ℚ → Int → ℚ → ℚ) (env : TimeEnv)
    (s : SensorData) (m : MeasIn) : SensorData :=
  let temperature := m.temperature + s.temperatureCorrection
  let humidity := m.humidity + s.humidityCorrection
  let pressure0 := m.pressure + s.pressureCorrection
  let ppm := m.ppm + s.ppmCorrection
  let lux := m.lux + s.luxCorrection
  let windSpeed := m.windSpeed * s.windSpeedCorrection
  let windDirection := cppWindDirCalib m.windDirection s.windDirectionCorrection
  let rainAmount := m.rainAmount * s.rainAmountCorrection
  let rainRate := m.rainRate * s.rainRateCorrection
  let pressure :=
    if s.hasPressure && decide (0 < s.altitude) then padj pressure0 s.altitude temperature
    else pressure0
  let doReset := s.hasRainAmount && env.timeOk && rainResetNeeded env s
  { s with
    temperature := if s.hasTemperature then temperature else s.temperature
    humidity := if s.hasHumidity then humidity else s.humidity
    pressure := if s.hasPressure then pressure else s.pressure
    ppm := if s.hasPPM then ppm else s.ppm
    lux := if s.hasLux then lux else s.lux
    windSpeed := if s.hasWindSpeed then windSpeed else s.windSpeed
    windDirection := if s.hasWindDirection then windDirection else s.windDirection
    rainAmount := if s.hasRainAmount then rainAmount else s.rainAmount
    dailyRainTotal :=
      if s.hasRainAmount then (if doReset then 0 else s.dailyRainTotal) + rainAmount
      else s.dailyRainTotal
    lastRainReset := if doReset then env.now else s.lastRainReset
    rainRate := if s.hasRainRate then rainRate else s.rainRate
    batteryVoltage := m.batteryVoltage
    rssi := m.rssi
    lastSeen := env.nowMillis }

/-- SensorManager::updateSensorData including the index bookkeeping:
out-of-range or unconfigured indices answer false (here: none). -/
def updateSensorData (padj : ℚ → Int → ℚ → ℚ) (env : TimeEnv)
    (sensors : List SensorData) (index : Int) (m : MeasIn) : Option (List SensorData) :=
  if index < 0 ∨ (sensors.length : Int) ≤ index then none
  else
    match sensors.get? index.toNat with
    | none => none
    | some s =>
        if s.configured then some (sensors.set index.toNat (applySensorUpdate padj env s m))
        else none

/-- A pressure conversion that leaves its input unchanged, used to
instantiate the padj parameter in concrete computations. -/
def idPadj : ℚ → Int → ℚ → ℚ := fun p _ _ => p

/-- A time environment with an unsynchronised wall clock. -/
def noClockEnv : TimeEnv :=
  { timeOk := false, now := 0, localDate := fun _ => (0, 0, 0), nowMillis := 0 }

/-- A measurement input with every field zero (rssi included). -/
def zeroMeas : MeasIn :=
  { temperature := 0, humidity := 0, pressure := 0, ppm := 0, lux := 0
    batteryVoltage := 0, rssi := 0, windSpeed := 0, windDirection := 0
    rainAmount := 0, rainRate := 0 }

/-- A configured METEO station whose wind-direction offset is -10. -/
def windDirSensor : SensorData :=
  { defaultSensor with
    configured := true, deviceType := 3, windDirectionCorrection := -10 }

/-- C6: the stored wind direction is not kept inside 0..359.  With raw
direction 0 and offset -10 the C++ remainder is -10, which the uint16
conversion wraps to 65526; the mathematical (raw + offset) mod 360
would give 350. -/
theorem wind_direction_out_of_range :
    (applySensorUpdate idPadj noClockEnv windDirSensor zeroMeas).windDirection = 65526 ∧
    ¬ (applySensorUpdate idPadj noClockEnv windDirSensor zeroMeas).windDirection ≤ 359 ∧
    cppWindDirCalib 0 (-10) = 65526 ∧
    ((0 : Int) + (-10)).emod 360 = 350 := by
  refine ⟨by decide, by decide, by decide, by decide⟩

/-- C7: the rain-day rollover for a rain-capable sensor.  With a
synchronised clock, a packet whose local date differs from the stored
reset date (or a zero reset time) first clears the daily total and
stamps the reset time, then adds the post-calibration rain amount; a
packet on the same date only accumulates; with an unsynchronised clock
no rollover happens but the post-calibration amount still accumulates. -/
theorem rain_day_rollover (padj : ℚ → Int → ℚ → ℚ) (env : TimeEnv)
    (s : SensorData) (m : MeasIn) (hcap : s.hasRainAmount = true) :
    (env.timeOk = true →
      (s.lastRainReset = 0 ∨ env.localDate env.now ≠ env.localDate s.lastRainReset) →
      (applySensorUpdate padj env s m).dailyRainTotal
          = m.rainAmount * s.rainAmountCorrection ∧
      (applySensorUpdate padj env s m).lastRainReset = env.now) ∧
    (env.timeOk = true → s.lastRainReset ≠ 0 →
      env.localDate env.now = env.localDate s.lastRainReset →
      (applySensorUpdate padj env s m).dailyRainTotal
          = s.dailyRainTotal + m.rainAmount * s.rainAmountCorrection ∧
      (applySensorUpdate padj env s m).lastRainReset = s.lastRainReset) ∧
    (env.timeOk = false →
      (applySensorUpdate padj env s m).dailyRainTotal
          = s.dailyRainTotal + m.rainAmount * s.rainAmountCorrection ∧
      (applySensorUpdate padj env s m).lastRainReset = s.lastRainReset) := by
  refine ⟨?_, ?_, ?_⟩
  · intro ht hdate
    simp [applySensorUpdate, rainResetNeeded, hcap, ht, hdate]
  · intro ht hz hdate
    simp [applySensorUpdate, rainResetNeeded, hcap, ht, hz, hdate]
  · intro ht
    simp [applySensorUpdate, rainResetNeeded, hcap, ht]

/-- A configured METEO station with identity calibration and reset time 0. -/
def rainSensor : SensorData :=
  { defaultSensor with configured := true, deviceType := 3 }

/-- A measurement carrying 2 mm of rain. -/
def rainMeas : MeasIn :=
  { zeroMeas with rainAmount := 2 }

/-- A time environment with a synchronised clock. -/
def dayEnv : TimeEnv :=
  { timeOk := true, now := 1000, localDate := fun t => (t / 86400, 0, 0), nowMillis := 5 }

/-- C7 witness: a first rain-bearing packet on a sensor with reset time
0 resets and then accumulates the calibrated amount. -/
theorem rain_day_rollover_witness :
    (applySensorUpdate idPadj dayEnv rainSensor rainMeas).dailyRainTotal
        = rainMeas.rainAmount * rainSensor.rainAmountCorrection ∧
    (applySensorUpdate idPadj dayEnv rainSensor rainMeas).lastRainReset = dayEnv.now :=
  (rain_day_rollover idPadj dayEnv rainSensor rainMeas (by decide)).1 rfl (Or.inl rfl)

/-! ### Fan-out gating (src/Data/SensorManager.cpp, forwardSensorData and
src/Protocol/MQTTManager.cpp, publishDiscovery / publishSensorData) -/

/-- The capability-gated sequence of value types for which
MQTTManager::publishDiscovery emits a retained discovery document,
battery and rssi always included last. -/
def discoveryFields (s : SensorData) : List String :=
  (if s.hasTemperature then ["temperature"] else []) ++
  (if s.hasHumidity then ["humidity"] else []) ++
  (if s.hasPressure then ["pressure"] else []) ++
  (if s.hasPPM then ["co2"] else []) ++
  (if s.hasLux then ["illuminance"] else []) ++
  (if s.hasWindSpeed then ["wind_speed"] else []) ++
  (if s.hasWindDirection then ["wind_direction"] else []) ++
  (if s.hasRainAmount then ["rain_amount", "daily_rain"] else []) ++
  (if s.hasRainRate then ["rain_rate"] else []) ++
  ["battery", "rssi"]

/-- The capability-gated sequence of state-topic fields published by
MQTTManager::publishSensorData. -/
def stateTopicFields (s : SensorData) : List String :=
  (if s.hasTemperature then ["temperature"] else []) ++
  (if s.hasHumidity then ["humidity"] else []) ++
  (if s.hasPressure then ["pressure"] else []) ++
  (if s.hasPPM then ["co2"] else []) ++
  (if s.hasLux then ["illuminance"] else []) ++
  (if s.hasWindSpeed then ["wind_speed"] else []) ++
  (if s.hasWindDirection then ["wind_direction"] else []) ++
  (if s.hasRainAmount then ["rain_amount", "daily_rain"] else []) ++
  (if s.hasRainRate then ["rain_rate"] else []) ++
  ["battery", "rssi"]

/-- The capability-gated sequence of URL placeholder tokens that
SensorManager::forwardSensorData substitutes into a custom URL, the
unconditional tokens last. -/
def urlReplacements (s : SensorData) : List String :=
  (if s.hasTemperature then ["*TEMP*"] else []) ++
  (if s.hasHumidity then ["*HUM*"] else []) ++
  (if s.hasPressure then ["*PRESS*"] else []) ++
  (if s.hasPPM then ["*PPM*"] else []) ++
  (if s.hasLux then ["*LUX*"] else []) ++
  (if s.hasWindSpeed then ["*WIND_SPEED*"] else []) ++
  (if s.hasWindDirection then ["*WIND_DIR*"] else []) ++
  (if s.hasRainAmount then ["*RAIN*", "*DAILY_RAIN*"] else []) ++
  (if s.hasRainRate then ["*RAIN_RATE*"] else []) ++
  ["*BAT*", "*RSSI*", "*SN*", "*TYPE*"]

/-- C10: for a device of kind VEML7700 (4) every capability predicate is
false, because the type table has no VEML7700 row; applying a reading
therefore leaves every measurement field untouched and updates only
battery voltage, rssi and lastSeen; no state topic or discovery
document beyond battery and rssi is emitted and the lux placeholder is
never substituted. -/
theorem veml7700_reading_discarded (s : SensorData) (padj : ℚ → Int → ℚ → ℚ)
    (env : TimeEnv) (m : MeasIn) (h : s.deviceType = 4) :
    (s.hasTemperature = false ∧ s.hasHumidity = false ∧ s.hasPressure = false ∧
     s.hasPPM = false ∧ s.hasLux = false ∧ s.hasWindSpeed = false ∧
     s.hasWindDirection = false ∧ s.hasRainAmount = false ∧ s.hasRainRate = false) ∧
    ((applySensorUpdate padj env s m).temperature = s.temperature ∧
     (applySensorUpdate padj env s m).humidity = s.humidity ∧
     (applySensorUpdate padj env s m).pressure = s.pressure ∧
     (applySensorUpdate padj env s m).ppm = s.ppm ∧
     (applySensorUpdate padj env s m).lux = s.lux ∧
     (applySensorUpdate padj env s m).windSpeed = s.windSpeed ∧
     (applySensorUpdate padj env s m).windDirection = s.windDirection ∧
     (applySensorUpdate padj env s m).rainAmount = s.rainAmount ∧
     (applySensorUpdate padj env s m).rainRate = s.rainRate ∧
     (applySensorUpdate padj env s m).dailyRainTotal = s.dailyRainTotal ∧
     (applySensorUpdate padj env s m).lastRainReset = s.lastRainReset ∧
     (applySensorUpdate padj env s m).batteryVoltage = m.batteryVoltage ∧
     (applySensorUpdate padj env s m).rssi = m.rssi ∧
     (applySensorUpdate padj env s m).lastSeen = env.nowMillis) ∧
    discoveryFields s = ["battery", "rssi"] ∧
    stateTopicFields s = ["battery", "rssi"] ∧
    "*LUX*" ∉ urlReplacements s := by
  have hti : getSensorTypeInfo s.deviceType = unknownTypeInfo := by rw [h]; rfl
  have hcaps : s.hasTemperature = false ∧ s.hasHumidity = false ∧
      s.hasPressure = false ∧ s.hasPPM = false ∧ s.hasLux = false ∧
      s.hasWindSpeed = false ∧ s.hasWindDirection = false ∧
      s.hasRainAmount = false ∧ s.hasRainRate = false := by
    rw [SensorData.hasTemperature, SensorData.hasHumidity, SensorData.hasPressure,
      SensorData.hasPPM, SensorData.hasLux, SensorData.hasWindSpeed,
      SensorData.hasWindDirection, SensorData.hasRainAmount, SensorData.hasRainRate, hti]
    exact ⟨rfl, rfl, rfl, rfl, rfl, rfl, rfl, rfl, rfl⟩
  obtain ⟨c1, c2, c3, c4, c5, c6, c7, c8, c9⟩ := hcaps
  refine ⟨⟨c1, c2, c3, c4, c5, c6, c7, c8, c9⟩, ?_, ?_, ?_, ?_⟩
  · simp [applySensorUpdate, c1, c2, c3, c4, c5, c6, c7, c8, c9]
  · simp [discoveryFields, c1, c2, c3, c4, c5, c6, c7, c8, c9]
  · simp [stateTopicFields, c1, c2, c3, c4, c5, c6, c7, c8, c9]
  · simp [urlReplacements, c1, c2, c3, c4, c5, c6, c7, c8, c9]

/-- A configured registry entry of kind VEML7700. -/
def vemlSensor : SensorData :=
  { defaultSensor with configured := true, deviceType := 4, serialNumber := 0x123456 }

/-- A measurement carrying a decoded lux value, battery and rssi. -/
def vemlMeas : MeasIn :=
  { zeroMeas with lux := 1234, batteryVoltage := 3, rssi := -70 }

/-- C10 witness: the discard theorem evaluated on a concrete VEML7700
device and reading. -/
theorem veml7700_reading_discarded_witness :
    (vemlSensor.hasTemperature = false ∧ vemlSensor.hasHumidity = false ∧
     vemlSensor.hasPressure = false ∧ vemlSensor.hasPPM = false ∧
     vemlSensor.hasLux = false ∧ vemlSensor.hasWindSpeed = false ∧
     vemlSensor.hasWindDirection = false ∧ vemlSensor.hasRainAmount = false ∧
     vemlSensor.hasRainRate = false) ∧
    ((applySensorUpdate idPadj noClockEnv vemlSensor vemlMeas).temperature = vemlSensor.temperature ∧
     (applySensorUpdate idPadj noClockEnv vemlSensor vemlMeas).humidity = vemlSensor.humidity ∧
     (applySensorUpdate idPadj noClockEnv vemlSensor vemlMeas).pressure = vemlSensor.pressure ∧
     (applySensorUpdate idPadj noClockEnv vemlSensor vemlMeas).ppm = vemlSensor.ppm ∧
     (applySensorUpdate idPadj noClockEnv vemlSensor vemlMeas).lux = vemlSensor.lux ∧
     (applySensorUpdate idPadj noClockEnv vemlSensor vemlMeas).windSpeed = vemlSensor.windSpeed ∧
     (applySensorUpdate idPadj noClockEnv vemlSensor vemlMeas).windDirection = vemlSensor.windDirection ∧
     (applySensorUpdate idPadj noClockEnv vemlSensor vemlMeas).rainAmount = vemlSensor.rainAmount ∧
     (applySensorUpdate idPadj noClockEnv vemlSensor vemlMeas).rainRate = vemlSensor.rainRate ∧
     (applySensorUpdate idPadj noClockEnv vemlSensor vemlMeas).dailyRainTotal = vemlSensor.dailyRainTotal ∧
     (applySensorUpdate idPadj noClockEnv vemlSensor vemlMeas).lastRainReset = vemlSensor.lastRainReset ∧
     (applySensorUpdate idPadj noClockEnv vemlSensor vemlMeas).batteryVoltage = vemlMeas.batteryVoltage ∧
     (applySensorUpdate idPadj noClockEnv vemlSensor vemlMeas).rssi = vemlMeas.rssi ∧
     (applySensorUpdate idPadj noClockEnv vemlSensor vemlMeas).lastSeen = noClockEnv.nowMillis) ∧
    discoveryFields vemlSensor = ["battery", "rssi"] ∧
    stateTopicFields vemlSensor = ["battery", "rssi"] ∧
    "*LUX*" ∉ urlReplacements vemlSensor :=
  veml7700_reading_discarded vemlSensor idPadj noClockEnv vemlMeas rfl

/-! ### Radio receive (src/Hardware/LoRa_Module.cpp, receivePacket) -/

/-- The register state read by LoRaModule::receivePacket: the IRQ flags
byte, the received-byte count, the FIFO read pointer and the FIFO
contents (one byte per address). -/
structure RadioState where
  irqFlags : Nat
  rxNbBytes : Nat
  fifoRxCurrentAddr : Nat
  fifo : Nat → Nat

/-- LoRaModule::receivePacket: require the RX-done bit 0x40, drop
zero-length (and, vacuously for a byte register, over-255) packets,
check the FIFO address, then read rxNbBytes bytes from the FIFO.  The
IRQ-flag clearing writes are side effects outside this function. -/
def receivePacket (st : RadioState) : Option (List Nat) :=
  if st.irqFlags &&& 0x40 = 0 then none
  else if st.rxNbBytes = 0 ∨ 255 < st.rxNbBytes then none
  else if 255 < st.fifoRxCurrentAddr then none
  else some ((List.range st.rxNbBytes).map (fun i => st.fifo (st.fifoRxCurrentAddr + i)))

/-- A register state with both RX-done (0x40) and the payload-CRC-error
flag (0x20) set and a 3-byte packet pending. -/
def crcErrState : RadioState :=
  { irqFlags := 0x60, rxNbBytes := 3, fifoRxCurrentAddr := 0, fifo := fun _ => 0xAA }

/-- C8 counterexample: the driver delivers a frame although the
CRC-error IRQ flag is set - receivePacket never examines bit 0x20. -/
theorem crc_error_frame_delivered :
    crcErrState.irqFlags &&& 0x20 ≠ 0 ∧
    (receivePacket crcErrState).isSome = true := by
  refine ⟨by decide, by decide⟩

/-- C8 as amended: a frame is delivered exactly under the conditions the
driver does check: the RX-done flag is set and the length register is
non-zero; the delivered frame has that length.  The CRC-error flag is
not examined. -/
theorem receive_delivers_rxdone_nonzero (st : RadioState) (frame : List Nat)
    (h : receivePacket st = some frame) :
    st.irqFlags &&& 0x40 ≠ 0 ∧ st.rxNbBytes ≠ 0 ∧ frame.length = st.rxNbBytes := by
  rw [receivePacket] at h
  split_ifs at h with h1 h2 h3
  obtain ⟨rfl⟩ := Option.some.inj h.symm
  refine ⟨h1, fun hz => h2 (Or.inl hz), by simp⟩

/-- A register state with a clean 2-byte packet pending. -/
def goodRxState : RadioState :=
  { irqFlags := 0x40, rxNbBytes := 2, fifoRxCurrentAddr := 0, fifo := fun _ => 0xAA }

/-- C8 witness: the amended delivery conditions evaluated on a clean
receive. -/
theorem receive_delivers_rxdone_nonzero_witness :
    goodRxState.irqFlags &&& 0x40 ≠ 0 ∧ goodRxState.rxNbBytes ≠ 0 ∧
    ([0xAA, 0xAA] : List Nat).length = goodRxState.rxNbBytes :=
  receive_delivers_rxdone_nonzero goodRxState [0xAA, 0xAA] (by decide)

/-! ### MQTT connect sequence (src/Protocol/MQTTManager.cpp, connect) -/

/-- The MQTT configuration fields involved in the connect sequence. -/
structure MqttConfig where
  topicRoot : String
  haRoot : String
  haEnabled : Bool

/-- The observable steps of MQTTManager::connect after a
successful broker connection, tagged by call site: a retained discovery
publish, the retained status publish, or a delay. -/
inductive MqttEvent
  | discoveryPub (topic : String)
  | statusPub (topic : String) (payload : String) (retained : Bool)
  | delayMs (n : Nat)
deriving DecidableEq

/-- Hexadecimal rendering of a serial number, as the Arduino
String(n, HEX) constructor does. -/
def natToHex (n : Nat) : String :=
  String.mk (Nat.toDigits 16 n)

/-- MQTTManager::buildDiscoveryTopic. -/
def discoveryTopic (cfg : MqttConfig) (s : SensorData) (field : String) : String :=
  cfg.haRoot ++ "/sensor/" ++ cfg.topicRoot ++ "_" ++ natToHex s.serialNumber
    ++ "_" ++ field ++ "/config"

/-- The retained discovery publishes of one sensor, one per supported
field, in the order of MQTTManager::publishDiscovery. -/
def sensorDiscoveryEvents (cfg : MqttConfig) (s : SensorData) : List MqttEvent :=
  (discoveryFields s).map (fun f => .discoveryPub (discoveryTopic cfg s f))

/-- MQTTManager::publishDiscovery (with the client connected, as it is
inside connect): nothing when HA discovery is disabled, else one pass
over the active sensors. -/
def publishDiscoveryEvents (cfg : MqttConfig) (sensors : List SensorData) : List MqttEvent :=
  if cfg.haEnabled then
    ((sensors.filter (fun s => s.configured)).map (sensorDiscoveryEvents cfg)).flatten
  else []

/-- The publish sequence of the success branch of MQTTManager::connect:
first publishDiscovery, then a 500 ms delay, then the retained
status=online publish. -/
def connectEvents (cfg : MqttConfig) (sensors : List SensorData) : List MqttEvent :=
  publishDiscoveryEvents cfg sensors
    ++ [.delayMs 500, .statusPub (cfg.topicRoot ++ "/status") "online" true]

/-- The configuration of the connect-order scenario: defaults with HA
discovery enabled. -/
def cexCfg : MqttConfig :=
  { topicRoot := "explora", haRoot := "homeassistant", haEnabled := true }

/-- C9 counterexample: with HA discovery enabled and one BME280 device
registered, the status=online publish (index 6) does NOT precede the
first discovery publish (index 0): connect publishes discovery first
and status afterwards. -/
theorem status_before_discovery_false :
    ¬ (∀ i j : Nat, ∀ tS tD : String,
        (connectEvents cexCfg [demoSensor]).get? i
            = some (.statusPub tS "online" true) →
        (connectEvents cexCfg [demoSensor]).get? j = some (.discoveryPub tD) →
        i < j) := by
  intro h
  exact absurd
    (h 6 0 "explora/status" "homeassistant/sensor/explora_abcdef_temperature/config"
      (by decide) (by decide))
    (by decide)

theorem publishDiscoveryEvents_all_discovery (cfg : MqttConfig)
    (sensors : List SensorData) :
    ∀ e ∈ publishDiscoveryEvents cfg sensors, ∃ t, e = .discoveryPub t := by
  intro e he
  rw [publishDiscoveryEvents] at he
  split_ifs at he
  · rw [List.mem_flatten] at he
    obtain ⟨l, hl, hel⟩ := he
    rw [List.mem_map] at hl
    obtain ⟨s, -, rfl⟩ := hl
    rw [sensorDiscoveryEvents, List.mem_map] at hel
    obtain ⟨f, -, rfl⟩ := hel
    exact ⟨discoveryTopic cfg s f, rfl⟩
  · exact absurd he (List.not_mem_nil e)

/-- C9 as amended: in the connect sequence every discovery publish
precedes the retained status=online publish, and the status publish is
immediately preceded by the 500 ms delay. -/
theorem discovery_before_status (cfg : MqttConfig) (sensors : List SensorData)
    (i j : Nat) (tS p tD : String) (r : Bool)
    (hs : (connectEvents cfg sensors).get? i = some (.statusPub tS p r))
    (hd : (connectEvents cfg sensors).get? j = some (.discoveryPub tD)) :
    j < i ∧ (connectEvents cfg sensors).get? (i - 1) = some (.delayMs 500) := by
  have hn : (connectEvents cfg sensors).length
      = (publishDiscoveryEvents cfg sensors).length + 2 := by
    rw [connectEvents, List.length_append]; rfl
  have hjlt : j < (publishDiscoveryEvents cfg sensors).length := by
    by_contra hge
    rw [Nat.not_lt] at hge
    rw [connectEvents, List.get?_append_right hge] at hd
    rcases Nat.lt_or_ge (j - (publishDiscoveryEvents cfg sensors).length) 2 with h2 | h2
    · interval_cases h : (j - (publishDiscoveryEvents cfg sensors).length) <;> simp at hd
    · rw [List.get?_eq_none.mpr (by simpa using h2)] at hd
      exact absurd hd (by simp)
  have hieq : i = (publishDiscoveryEvents cfg sensors).length + 1 := by
    rcases Nat.lt_or_ge i (publishDiscoveryEvents cfg sensors).length with hlt | hge
    · exfalso
      rw [connectEvents, List.get?_append hlt] at hs
      obtain ⟨t, ht⟩ :=
        publishDiscoveryEvents_all_discovery cfg sensors _ (List.get?_mem hs)
      simp at ht
    · rw [connectEvents, List.get?_append_right hge] at hs
      rcases Nat.lt_or_ge (i - (publishDiscoveryEvents cfg sensors).length) 2 with h2 | h2
      · interval_cases h : (i - (publishDiscoveryEvents cfg sensors).length)
        · simp at hs
        · omega
      · rw [List.get?_eq_none.mpr (by simpa using h2)] at hs
        exact absurd hs (by simp)
  constructor
  · omega
  · rw [hieq, Nat.add_sub_cancel, connectEvents,
      List.get?_append_right (le_refl _), Nat.sub_self]
    rfl

/-- C9 witness: the amended ordering evaluated on the one-device
scenario: the discovery publish at index 0 precedes the status publish
at index 6, which follows the 500 ms delay. -/
theorem discovery_before_status_witness :
    0 < 6 ∧ (connectEvents cexCfg [demoSensor]).get? 5 = some (.delayMs 500) :=
  discovery_before_status cexCfg [demoSensor] 6 0 "explora/status" "online"
    "homeassistant/sensor/explora_abcdef_temperature/config" true
    (by decide) (by decide)

end ExpLora
